import Mathlib

/-!
Verification of the go-rauc D-Bus client binding (package `rauc`).

The repository is a thin client for the RAUC firmware-update daemon: it
opens a system-bus connection, calls methods on the daemon's control
object, reads its properties, and — for an install — blocks on a signal
channel until a `Completed` signal arrives.

Shallow embedding: the external D-Bus transport (godbus) is modelled as an
oracle `BusWorld` that fixes the outcome of every method call and property
read; the client functions from `installer.go` / the v5 installer file are
translated directly over that oracle.  The blocking receive loop of
`Install` / `InstallBundle` is modelled as a recursion over the finite
prefix of signals delivered on the subscribed channel, together with a flag
saying whether the channel closes after that prefix; a result of `none`
means the loop is still blocked in the channel receive.
-/

set_option autoImplicit false

namespace Rauc

/-- Model of a marshalled D-Bus value (the payload of `dbus.Variant` /
`interface{}` at the library boundary): integers, strings, booleans,
structs, string-keyed dictionaries and arrays. -/
inductive DBusValue where
  | int (i : Int)
  | str (s : String)
  | bool (b : Bool)
  | structV (fields : List DBusValue)
  | dict (entries : List (String × DBusValue))
  | array (elems : List DBusValue)

/-- Model of Go `strconv.Quote` escaping for one character, for the
printable characters that occur here: quote and backslash are escaped,
every other character stands for itself. -/
def goQuoteChar (c : Char) : String :=
  if c = '"' then "\\\"" else if c = '\\' then "\\\\" else String.singleton c

/-- Model of Go `strconv.Quote` on printable strings: the string is wrapped
in double quotes with quote and backslash characters escaped. -/
def goQuote (s : String) : String :=
  "\"" ++ String.join (s.data.map goQuoteChar) ++ "\""

/-- Model of godbus `Variant.String()` at the boundary, as used by the
string-typed property getters: a string variant is rendered in its
`strconv.Quote`'d form (quotes included) — the repository's
copy-from-other-slot tool strips exactly these quotes from getter
results — while integers and booleans are rendered in their plain
`fmt.Sprint` form. -/
def DBusValue.variantString : DBusValue → String
  | .str s => goQuote s
  | .int i => toString i
  | .bool b => toString b
  | _ => ""

/-- Model of `dbus.Signal`: the member name (`signal.Name`) and the payload
(`signal.Body`). -/
structure Signal where
  Name : String
  Body : List DBusValue

/-- Oracle for the bus transport: `call m args` is the outcome of
`p.object.Call(m, 0, args...)` (`.error` models a non-nil `.Err`, `.ok`
carries the reply body), and `props k` is the outcome of
`p.object.GetProperty(k)`. -/
structure BusWorld where
  call : String → List DBusValue → Except String (List DBusValue)
  props : String → Except String DBusValue

/-- The fixed bus name of the daemon (`dbusInterface` in the source). -/
def dbusInterface : String := "de.pengutronix.rauc"

/-- Full member name: `fmt.Sprintf("%s.%s.%s", dbusInterface, "Installer", method)`. -/
def interfaceForMember (method : String) : String :=
  dbusInterface ++ "." ++ "Installer" ++ "." ++ method

/-- Model of `dbus.Store(body, &code)` with a single `int32` destination, as
used on the `Completed` signal body: it succeeds exactly on a one-element
body carrying an integer. -/
def storeInt32 : List DBusValue → Except String Int
  | [.int i] => .ok i
  | _ => .error "dbus.Store: mismatched types"

/-- Model of `dbus.Store([variant.Value()], &progressResponse)`: the value
must be a three-field struct (int32, string, int32). -/
def storeProgress : DBusValue → Except String (Int × String × Int)
  | .structV [.int p, .str m, .int d] => .ok (p, m, d)
  | _ => .error "dbus.Store: mismatched types"

/-- SlotStatus is returned by GetSlotStatus and contains information on the
status of an available boot slot (`SlotName string; Status map[string]dbus.Variant`). -/
structure SlotStatus where
  SlotName : String
  Status : List (String × DBusValue)

/-- Attribute access on the slot's `Status` map by string key. -/
def SlotStatus.attr (s : SlotStatus) (key : String) : Option DBusValue :=
  s.Status.lookup key

/-- Decoding of one element of the `GetSlotStatus` reply array: a struct of
(slot name, attribute dictionary). -/
def decodeSlotEntry : DBusValue → Except String SlotStatus
  | .structV [.str name, .dict attrs] => .ok ⟨name, attrs⟩
  | _ => .error "dbus.Store: mismatched types"

/-- Decoding of the list of slot entries, in order. -/
def decodeSlotList : List DBusValue → Except String (List SlotStatus)
  | [] => .ok []
  | v :: rest => do
      let s ← decodeSlotEntry v
      let tail ← decodeSlotList rest
      pure (s :: tail)

/-- Model of `Call(...).Store(&status)` with `status : []SlotStatus`: the
reply body must be a single array of slot entries. -/
def storeSlotStatus : List DBusValue → Except String (List SlotStatus)
  | [.array entries] => decodeSlotList entries
  | _ => .error "dbus.Store: mismatched types"

/-- GetLastError returns the last message of the last error that occurred.
Mirrors the Go pair (string, error) as `String × Option String`. -/
def GetLastError (w : BusWorld) : String × Option String :=
  match w.props (interfaceForMember "LastError") with
  | .error e => ("", some ("RAUC: GetLastError(): " ++ e))
  | .ok v => (v.variantString, none)

/-- GetOperation returns the current (global) operation RAUC performs. -/
def GetOperation (w : BusWorld) : String × Option String :=
  match w.props (interfaceForMember "Operation") with
  | .error e => ("", some ("RAUC: GetOperation(): " ++ e))
  | .ok v => (v.variantString, none)

/-- GetCompatible returns the system's compatible string. -/
def GetCompatible (w : BusWorld) : String × Option String :=
  match w.props (interfaceForMember "Compatible") with
  | .error e => ("", some ("RAUC: GetProperty(Compatible): " ++ e))
  | .ok v => (v.variantString, none)

/-- GetVariant returns the system's variant string. -/
def GetVariant (w : BusWorld) : String × Option String :=
  match w.props (interfaceForMember "Variant") with
  | .error e => ("", some ("RAUC: GetProperty(Variant): " ++ e))
  | .ok v => (v.variantString, none)

/-- GetBootSlot returns the currently used boot slot. -/
def GetBootSlot (w : BusWorld) : String × Option String :=
  match w.props (interfaceForMember "BootSlot") with
  | .error e => ("", some ("RAUC: GetProperty(BootSlot): " ++ e))
  | .ok v => (v.variantString, none)

/-- GetProgress returns installation progress information in the form
(percentage, message, nesting depth, error). -/
def GetProgress (w : BusWorld) : Int × String × Int × Option String :=
  match w.props (interfaceForMember "Progress") with
  | .error e => (-1, "", -1, some ("RAUC: GetProperty(Progress): " ++ e))
  | .ok variant =>
    match storeProgress variant with
    | .error e => (-1, "", -1, some ("RAUC: Cannot store result: " ++ e))
    | .ok (p, m, d) => (p, m, d, none)

/-- GetProgress as in the older `installer.go` revision: there the local
`progressResponse` struct has only unexported fields, so godbus
`dbus.Store` pairs the three source values against an empty field list,
writes nothing and reports a type mismatch — and that returned error is
discarded by the source. Every successful property read therefore yields
the zero values (0, "", 0) with a nil error, whatever the value's shape;
only a transport error is reported (wrapped as in the v5 version). -/
def GetProgressOld (w : BusWorld) : Int × String × Int × Option String :=
  match w.props (interfaceForMember "Progress") with
  | .error e => (-1, "", -1, some ("RAUC: GetProperty(Progress): " ++ e))
  | .ok _ => (0, "", 0, none)

/-- GetSlotStatus is an access method to get all slots' status. -/
def GetSlotStatus (w : BusWorld) : Option (List SlotStatus) × Option String :=
  match w.call (interfaceForMember "GetSlotStatus") [] with
  | .error e => (none, some ("RAUC: GetSlotStatus(): " ++ e))
  | .ok body =>
    match storeSlotStatus body with
    | .error e => (none, some ("RAUC: GetSlotStatus(): " ++ e))
    | .ok status => (some status, none)

/-- The receive loop of `Install` / `InstallBundle`: `delivered` is the
finite prefix of signals the channel delivers, `closes` says whether the
channel then closes.  `none` means the loop is still blocked receiving;
`some r` means the function returned with Go error `r` (`r = none` is the
`nil`-error success return). -/
def awaitCompleted (w : BusWorld) : List Signal → Bool → Option (Option String)
  | [], closes => if closes then some (some "RAUC: Cannot read from channel") else none
  | signal :: rest, closes =>
    if signal.Name = interfaceForMember "Completed" then
      match storeInt32 signal.Body with
      | .error e => some (some e)
      | .ok code =>
        if code ≠ 0 then
          match GetLastError w with
          | (_, some e) => some (some e)
          | (errorString, none) => some (some errorString)
        else
          some none
    else
      awaitCompleted w rest closes

/-- InstallBundleOptions contains options for the InstallBundle method. -/
structure InstallBundleOptions where
  IgnoreIncompatible : Bool

/-- InstallBundle triggers the installation of a bundle and waits for the
"Completed" signal (v5 installer file). -/
def InstallBundle (w : BusWorld) (filename : String) (options : InstallBundleOptions)
    (delivered : List Signal) (closes : Bool) : Option (Option String) :=
  match w.call (interfaceForMember "InstallBundle")
      [.str filename, .dict [("ignore-compatible", .bool options.IgnoreIncompatible)]] with
  | .error e => some (some ("RAUC: Install(): " ++ e))
  | .ok _ => awaitCompleted w delivered closes

/-- Install triggers the installation of a bundle and waits for the
"Completed" signal (`installer.go`). -/
def Install (w : BusWorld) (filename : String)
    (delivered : List Signal) (closes : Bool) : Option (Option String) :=
  match w.call (interfaceForMember "Install") [.str filename] with
  | .error e => some (some ("RAUC: Install(): " ++ e))
  | .ok _ => awaitCompleted w delivered closes

/-- Oracle for construction: the outcome of `dbus.SystemBus()` and of the
`AddMatchSignal` subscription registration. -/
structure ConnectWorld where
  systemBus : Except String Unit
  addMatchSignalErr : Option String

/-- The constructed Installer object: the remote object reference it holds
(`conn.Object(dbusInterface, dbus.ObjectPath("/"))`). -/
structure Installer where
  objectDest : String
  objectPath : String

/-- InstallerNew returns a newly allocated Installer object: it fails iff
`dbus.SystemBus()` fails; the result of the `AddMatchSignal` registration
is discarded by the source. -/
def InstallerNew (w : ConnectWorld) : Except String Installer :=
  match w.systemBus with
  | .error e => .error e
  | .ok _ => .ok { objectDest := dbusInterface, objectPath := "/" }

/-! Sample bus worlds used to instantiate the theorems below. -/

/-- Sample world: every call succeeds with an empty reply body, every
property reads as the string "boom". -/
def busWorldA : BusWorld :=
  { call := fun _ _ => .ok [], props := fun _ => .ok (.str "boom") }

/-- Sample world: every call and every property read fails. -/
def busWorldErr : BusWorld :=
  { call := fun _ _ => .error "no such object", props := fun _ => .error "no reply" }

/-- A signal whose member name is not the Completed member. -/
def straySignal : Signal := { Name := "org.freedesktop.DBus.Properties.PropertiesChanged", Body := [] }

/-- A Completed signal carrying completion code `c`. -/
def completedSignal (c : Int) : Signal :=
  { Name := interfaceForMember "Completed", Body := [.int c] }

/-- Receiving signals that are not the Completed member leaves the wait
loop where it was. -/
theorem awaitCompleted_append (w : BusWorld) (pre rest : List Signal) (closes : Bool)
    (h : ∀ sg ∈ pre, sg.Name ≠ interfaceForMember "Completed") :
    awaitCompleted w (pre ++ rest) closes = awaitCompleted w rest closes := by
  induction pre with
  | nil => rfl
  | cons s t ih =>
    have hs : s.Name ≠ interfaceForMember "Completed" := h s (List.mem_cons_self s t)
    have ht : ∀ sg ∈ t, sg.Name ≠ interfaceForMember "Completed" :=
      fun sg hm => h sg (List.mem_cons_of_mem s hm)
    simpa [awaitCompleted, hs] using ih ht

/-- C1: for every non-zero completion code `c` carried by a Completed signal
received while awaiting an install, Install / InstallBundle return an error
whose message equals the string read from the daemon's LastError property
(here `lastErr`), never the raw numeric code: the returned message does not
depend on `c` at all. -/
theorem install_nonzero_completion_returns_lastError
    (w : BusWorld) (filename : String) (options : InstallBundleOptions)
    (pre rest : List Signal) (closes : Bool) (c : Int) (lastErr : String)
    (bodyB bodyI : List DBusValue)
    (hpre : ∀ sg ∈ pre, sg.Name ≠ interfaceForMember "Completed")
    (hc : c ≠ 0)
    (hlast : GetLastError w = (lastErr, none))
    (hcallB : w.call (interfaceForMember "InstallBundle")
        [.str filename, .dict [("ignore-compatible", .bool options.IgnoreIncompatible)]]
      = .ok bodyB)
    (hcallI : w.call (interfaceForMember "Install") [.str filename] = .ok bodyI) :
    InstallBundle w filename options (pre ++ completedSignal c :: rest) closes
      = some (some lastErr)
    ∧ Install w filename (pre ++ completedSignal c :: rest) closes = some (some lastErr) := by
  have hskip := awaitCompleted_append w pre (completedSignal c :: rest) closes hpre
  constructor
  · simp only [InstallBundle, hcallB]
    rw [hskip]
    simp [awaitCompleted, completedSignal, storeInt32, hc, hlast]
  · simp only [Install, hcallI]
    rw [hskip]
    simp [awaitCompleted, completedSignal, storeInt32, hc, hlast]

/-- C1 witness at a concrete world and input. -/
theorem install_nonzero_completion_returns_lastError_witness :
    InstallBundle busWorldA "bundle.raucb" ⟨false⟩
        ([straySignal] ++ completedSignal 1 :: []) false = some (some "\"boom\"")
    ∧ Install busWorldA "bundle.raucb"
        ([straySignal] ++ completedSignal 1 :: []) false = some (some "\"boom\"") :=
  install_nonzero_completion_returns_lastError busWorldA "bundle.raucb" ⟨false⟩
    [straySignal] [] false 1 "\"boom\"" [] []
    (by decide) (by decide) (by decide) rfl rfl

/-- C2: for a Completed signal whose payload decodes to the integer code
exactly zero, Install / InstallBundle return success (nil error), whatever
other signals were delivered before or after and whether the channel later
closes. -/
theorem install_zero_completion_succeeds
    (w : BusWorld) (filename : String) (options : InstallBundleOptions)
    (pre rest : List Signal) (closes : Bool) (bodyB bodyI : List DBusValue)
    (hpre : ∀ sg ∈ pre, sg.Name ≠ interfaceForMember "Completed")
    (hcallB : w.call (interfaceForMember "InstallBundle")
        [.str filename, .dict [("ignore-compatible", .bool options.IgnoreIncompatible)]]
      = .ok bodyB)
    (hcallI : w.call (interfaceForMember "Install") [.str filename] = .ok bodyI) :
    InstallBundle w filename options (pre ++ completedSignal 0 :: rest) closes = some none
    ∧ Install w filename (pre ++ completedSignal 0 :: rest) closes = some none := by
  have hskip := awaitCompleted_append w pre (completedSignal 0 :: rest) closes hpre
  constructor
  · simp only [InstallBundle, hcallB]
    rw [hskip]
    simp [awaitCompleted, completedSignal, storeInt32]
  · simp only [Install, hcallI]
    rw [hskip]
    simp [awaitCompleted, completedSignal, storeInt32]

/-- C2 witness at a concrete world and input. -/
theorem install_zero_completion_succeeds_witness :
    InstallBundle busWorldA "bundle.raucb" ⟨true⟩
        ([straySignal] ++ completedSignal 0 :: [completedSignal 7]) true = some none
    ∧ Install busWorldA "bundle.raucb"
        ([straySignal] ++ completedSignal 0 :: [completedSignal 7]) true = some none :=
  install_zero_completion_succeeds busWorldA "bundle.raucb" ⟨true⟩
    [straySignal] [completedSignal 7] true [] []
    (by decide) rfl rfl

/-- C3: a received notification whose member name is not the Completed
member is discarded and the wait continues: the operation's outcome on the
stream with that signal in front is the outcome on the remaining stream, so
such a notification never by itself causes the operation to return. -/
theorem install_discards_non_completed_signals
    (w : BusWorld) (filename : String) (options : InstallBundleOptions)
    (s : Signal) (rest : List Signal) (closes : Bool)
    (hs : s.Name ≠ interfaceForMember "Completed") :
    InstallBundle w filename options (s :: rest) closes
      = InstallBundle w filename options rest closes
    ∧ Install w filename (s :: rest) closes = Install w filename rest closes := by
  have h1 : awaitCompleted w (s :: rest) closes = awaitCompleted w rest closes := by
    simp [awaitCompleted, hs]
  constructor <;> simp [InstallBundle, Install, h1]

/-- C3 witness at a concrete world and input. -/
theorem install_discards_non_completed_signals_witness :
    InstallBundle busWorldA "bundle.raucb" ⟨false⟩ (straySignal :: []) false
      = InstallBundle busWorldA "bundle.raucb" ⟨false⟩ [] false
    ∧ Install busWorldA "bundle.raucb" (straySignal :: []) false
      = Install busWorldA "bundle.raucb" [] false :=
  install_discards_non_completed_signals busWorldA "bundle.raucb" ⟨false⟩
    straySignal [] false (by decide)

/-- C4: if the transport call initiating the install fails with `e`, the
operation returns immediately with the wrapped error, for every state of
the signal channel — no receive from the channel is consulted. -/
theorem install_call_error_short_circuits
    (w : BusWorld) (filename : String) (options : InstallBundleOptions)
    (delivered : List Signal) (closes : Bool) (e : String)
    (hcallB : w.call (interfaceForMember "InstallBundle")
        [.str filename, .dict [("ignore-compatible", .bool options.IgnoreIncompatible)]]
      = .error e)
    (hcallI : w.call (interfaceForMember "Install") [.str filename] = .error e) :
    InstallBundle w filename options delivered closes
      = some (some ("RAUC: Install(): " ++ e))
    ∧ Install w filename delivered closes = some (some ("RAUC: Install(): " ++ e)) := by
  constructor <;> simp [InstallBundle, Install, hcallB, hcallI]

/-- C4 witness at a concrete world and input. -/
theorem install_call_error_short_circuits_witness :
    InstallBundle busWorldErr "bundle.raucb" ⟨false⟩ [completedSignal 0] false
      = some (some ("RAUC: Install(): " ++ "no such object"))
    ∧ Install busWorldErr "bundle.raucb" [completedSignal 0] false
      = some (some ("RAUC: Install(): " ++ "no such object")) :=
  install_call_error_short_circuits busWorldErr "bundle.raucb" ⟨false⟩
    [completedSignal 0] false "no such object" rfl rfl

/-- C5: if the channel closes before a matching Completed signal is
received, the operation returns the channel-closed error, which is not the
success return. -/
theorem install_channel_closed_error
    (w : BusWorld) (filename : String) (options : InstallBundleOptions)
    (delivered : List Signal) (bodyB bodyI : List DBusValue)
    (hpre : ∀ sg ∈ delivered, sg.Name ≠ interfaceForMember "Completed")
    (hcallB : w.call (interfaceForMember "InstallBundle")
        [.str filename, .dict [("ignore-compatible", .bool options.IgnoreIncompatible)]]
      = .ok bodyB)
    (hcallI : w.call (interfaceForMember "Install") [.str filename] = .ok bodyI) :
    InstallBundle w filename options delivered true
      = some (some "RAUC: Cannot read from channel")
    ∧ Install w filename delivered true = some (some "RAUC: Cannot read from channel")
    ∧ InstallBundle w filename options delivered true ≠ some none
    ∧ Install w filename delivered true ≠ some none := by
  have hskip := awaitCompleted_append w delivered [] true hpre
  rw [List.append_nil] at hskip
  have hB : InstallBundle w filename options delivered true
      = some (some "RAUC: Cannot read from channel") := by
    simp [InstallBundle, hcallB, hskip, awaitCompleted]
  have hI : Install w filename delivered true
      = some (some "RAUC: Cannot read from channel") := by
    simp [Install, hcallI, hskip, awaitCompleted]
  refine ⟨hB, hI, ?_, ?_⟩ <;> simp [hB, hI]

/-- C5 witness at a concrete world and input. -/
theorem install_channel_closed_error_witness :
    InstallBundle busWorldA "bundle.raucb" ⟨false⟩ [straySignal] true
      = some (some "RAUC: Cannot read from channel")
    ∧ Install busWorldA "bundle.raucb" [straySignal] true
      = some (some "RAUC: Cannot read from channel")
    ∧ InstallBundle busWorldA "bundle.raucb" ⟨false⟩ [straySignal] true ≠ some none
    ∧ Install busWorldA "bundle.raucb" [straySignal] true ≠ some none :=
  install_channel_closed_error busWorldA "bundle.raucb" ⟨false⟩ [straySignal] [] []
    (by decide) rfl rfl

/-- Sample world: the Progress property reads as the example aggregate. -/
def busWorldProgress : BusWorld :=
  { call := fun _ _ => .ok [],
    props := fun _ => .ok (.structV [.int 42, .str "copying image", .int 1]) }

/-- Sample world: the Progress property reads as a value that is not a
three-field aggregate. -/
def busWorldBadShape : BusWorld :=
  { call := fun _ _ => .ok [], props := fun _ => .ok (.str "oops") }

/-- The decode-failure message of GetProgress never coincides with a
transport-failure message of GetProgress, whatever the underlying
errors. -/
theorem storeMsg_ne_transportMsg (m e : String) :
    "RAUC: Cannot store result: " ++ m ≠ "RAUC: GetProperty(Progress): " ++ e := by
  intro h
  have h2 := congrArg String.data h
  simp [String.data_append] at h2

/-- C6: the v5 GetProgress behaves as claimed — reading a Progress value
(42, "copying image", 1) yields percentage 42, message "copying image",
nesting depth 1 and a nil error, and a value of any other shape yields the
decode error, which differs from every transport-error result — but the
older `installer.go` GetProgress returns the zero values with a nil error
both at the well-formed aggregate (never 42) and at the mismatched value
(no decode error), because its `dbus.Store` error is discarded and its
struct fields are unexported. -/
theorem getProgress_decode_spec
    (w1 w2 w3 : BusWorld) (v : DBusValue) (e e3 : String)
    (h1 : w1.props (interfaceForMember "Progress")
      = .ok (.structV [.int 42, .str "copying image", .int 1]))
    (h2 : w2.props (interfaceForMember "Progress") = .ok v)
    (hv : storeProgress v = .error e)
    (h3 : w3.props (interfaceForMember "Progress") = .error e3) :
    GetProgress w1 = (42, "copying image", 1, none)
    ∧ GetProgress w2 = (-1, "", -1, some ("RAUC: Cannot store result: " ++ e))
    ∧ GetProgress w3 = (-1, "", -1, some ("RAUC: GetProperty(Progress): " ++ e3))
    ∧ GetProgress w2 ≠ GetProgress w3
    ∧ GetProgressOld w1 = (0, "", 0, none)
    ∧ GetProgressOld w2 = (0, "", 0, none)
    ∧ GetProgressOld w1 ≠ GetProgress w1 := by
  have g1 : GetProgress w1 = (42, "copying image", 1, none) := by
    simp [GetProgress, h1, storeProgress]
  have g2 : GetProgress w2 = (-1, "", -1, some ("RAUC: Cannot store result: " ++ e)) := by
    simp [GetProgress, h2, hv]
  have g3 : GetProgress w3 = (-1, "", -1, some ("RAUC: GetProperty(Progress): " ++ e3)) := by
    simp [GetProgress, h3]
  have g5 : GetProgressOld w1 = (0, "", 0, none) := by
    simp [GetProgressOld, h1]
  have g6 : GetProgressOld w2 = (0, "", 0, none) := by
    simp [GetProgressOld, h2]
  refine ⟨g1, g2, g3, ?_, g5, g6, ?_⟩
  · rw [g2, g3]
    intro hEq
    have h4 := congrArg (fun t => t.2.2.2) hEq
    simp only [Option.some.injEq] at h4
    exact storeMsg_ne_transportMsg e e3 h4
  · rw [g1, g5]
    decide

/-- C6 witness at concrete worlds. -/
theorem getProgress_decode_spec_witness :
    GetProgress busWorldProgress = (42, "copying image", 1, none)
    ∧ GetProgress busWorldBadShape
      = (-1, "", -1, some ("RAUC: Cannot store result: " ++ "dbus.Store: mismatched types"))
    ∧ GetProgress busWorldErr
      = (-1, "", -1, some ("RAUC: GetProperty(Progress): " ++ "no reply"))
    ∧ GetProgress busWorldBadShape ≠ GetProgress busWorldErr
    ∧ GetProgressOld busWorldProgress = (0, "", 0, none)
    ∧ GetProgressOld busWorldBadShape = (0, "", 0, none)
    ∧ GetProgressOld busWorldProgress ≠ GetProgress busWorldProgress :=
  getProgress_decode_spec busWorldProgress busWorldBadShape busWorldErr
    (.str "oops") "dbus.Store: mismatched types" "no reply" rfl rfl rfl rfl

/-- Sample world: every property reads as the string "idle". -/
def busWorldIdle : BusWorld :=
  { call := fun _ _ => .ok [], props := fun _ => .ok (.str "idle") }

/-- C7 counterexample: a successful read of a string-typed property does
not yield the bare decoded string value: godbus renders the variant in its
quoted form, so GetOperation on an "idle" operation returns the quoted
string, not "idle". -/
theorem string_getter_returns_quoted_counterexample :
    GetOperation busWorldIdle ≠ ("idle", none)
    ∧ GetOperation busWorldIdle = ("\"idle\"", none) := by
  constructor
  · decide
  · decide

/-- C7 (amended): every string-typed property getter wraps a transport
error with context naming the failed property, and on success returns
godbus's string rendering of the property's variant — for a string
property the `strconv.Quote`'d form, quotes included, not the bare
decoded string. -/
theorem string_property_getters_spec
    (wE wO : BusWorld)
    (eOp eLE eCo eVa eBS sOp sLE sCo sVa sBS : String)
    (hEOp : wE.props (interfaceForMember "Operation") = .error eOp)
    (hELE : wE.props (interfaceForMember "LastError") = .error eLE)
    (hECo : wE.props (interfaceForMember "Compatible") = .error eCo)
    (hEVa : wE.props (interfaceForMember "Variant") = .error eVa)
    (hEBS : wE.props (interfaceForMember "BootSlot") = .error eBS)
    (hOOp : wO.props (interfaceForMember "Operation") = .ok (.str sOp))
    (hOLE : wO.props (interfaceForMember "LastError") = .ok (.str sLE))
    (hOCo : wO.props (interfaceForMember "Compatible") = .ok (.str sCo))
    (hOVa : wO.props (interfaceForMember "Variant") = .ok (.str sVa))
    (hOBS : wO.props (interfaceForMember "BootSlot") = .ok (.str sBS)) :
    GetOperation wE = ("", some ("RAUC: GetOperation(): " ++ eOp))
    ∧ GetLastError wE = ("", some ("RAUC: GetLastError(): " ++ eLE))
    ∧ GetCompatible wE = ("", some ("RAUC: GetProperty(Compatible): " ++ eCo))
    ∧ GetVariant wE = ("", some ("RAUC: GetProperty(Variant): " ++ eVa))
    ∧ GetBootSlot wE = ("", some ("RAUC: GetProperty(BootSlot): " ++ eBS))
    ∧ GetOperation wO = (goQuote sOp, none)
    ∧ GetLastError wO = (goQuote sLE, none)
    ∧ GetCompatible wO = (goQuote sCo, none)
    ∧ GetVariant wO = (goQuote sVa, none)
    ∧ GetBootSlot wO = (goQuote sBS, none) := by
  refine ⟨?_, ?_, ?_, ?_, ?_, ?_, ?_, ?_, ?_, ?_⟩ <;>
    simp [GetOperation, GetLastError, GetCompatible, GetVariant, GetBootSlot,
      DBusValue.variantString, hEOp, hELE, hECo, hEVa, hEBS, hOOp, hOLE, hOCo, hOVa, hOBS]

/-- C7 witness at concrete worlds. -/
theorem string_property_getters_spec_witness :
    GetOperation busWorldErr = ("", some ("RAUC: GetOperation(): " ++ "no reply"))
    ∧ GetLastError busWorldErr = ("", some ("RAUC: GetLastError(): " ++ "no reply"))
    ∧ GetCompatible busWorldErr = ("", some ("RAUC: GetProperty(Compatible): " ++ "no reply"))
    ∧ GetVariant busWorldErr = ("", some ("RAUC: GetProperty(Variant): " ++ "no reply"))
    ∧ GetBootSlot busWorldErr = ("", some ("RAUC: GetProperty(BootSlot): " ++ "no reply"))
    ∧ GetOperation busWorldA = (goQuote "boom", none)
    ∧ GetLastError busWorldA = (goQuote "boom", none)
    ∧ GetCompatible busWorldA = (goQuote "boom", none)
    ∧ GetVariant busWorldA = (goQuote "boom", none)
    ∧ GetBootSlot busWorldA = (goQuote "boom", none) :=
  string_property_getters_spec busWorldErr busWorldA
    "no reply" "no reply" "no reply" "no reply" "no reply"
    "boom" "boom" "boom" "boom" "boom"
    rfl rfl rfl rfl rfl rfl rfl rfl rfl rfl

/-- The first slot entry of the example GetSlotStatus reply. -/
def slotZero : SlotStatus :=
  ⟨"rootfs.0",
    [("class", .str "rootfs"), ("state", .str "booted"), ("device", .str "/dev/mmcblk0p1")]⟩

/-- The second slot entry of the example GetSlotStatus reply. -/
def slotOne : SlotStatus :=
  ⟨"rootfs.1",
    [("class", .str "rootfs"), ("state", .str "inactive"), ("device", .str "/dev/mmcblk0p2")]⟩

/-- The example GetSlotStatus reply body carrying two slot entries. -/
def slotReplyBody : List DBusValue :=
  [.array
    [.structV [.str "rootfs.0",
      .dict [("class", .str "rootfs"), ("state", .str "booted"),
             ("device", .str "/dev/mmcblk0p1")]],
     .structV [.str "rootfs.1",
      .dict [("class", .str "rootfs"), ("state", .str "inactive"),
             ("device", .str "/dev/mmcblk0p2")]]]]

/-- Sample world: the GetSlotStatus call replies with the two-slot body. -/
def busWorldSlots : BusWorld :=
  { call := fun _ _ => .ok slotReplyBody, props := fun _ => .error "no reply" }

/-- C8: decoding a GetSlotStatus reply with the two example slot entries
yields exactly those two SlotStatus entries in the same order, each
exposing its attributes by string key. -/
theorem getSlotStatus_two_slots_decode
    (w : BusWorld)
    (hcall : w.call (interfaceForMember "GetSlotStatus") [] = .ok slotReplyBody) :
    GetSlotStatus w = (some [slotZero, slotOne], none)
    ∧ (GetSlotStatus w).1.map List.length = some 2
    ∧ slotZero.SlotName = "rootfs.0"
    ∧ slotOne.SlotName = "rootfs.1"
    ∧ slotZero.attr "class" = some (.str "rootfs")
    ∧ slotZero.attr "state" = some (.str "booted")
    ∧ slotZero.attr "device" = some (.str "/dev/mmcblk0p1")
    ∧ slotOne.attr "class" = some (.str "rootfs")
    ∧ slotOne.attr "state" = some (.str "inactive")
    ∧ slotOne.attr "device" = some (.str "/dev/mmcblk0p2") := by
  have hg : GetSlotStatus w = (some [slotZero, slotOne], none) := by
    simp only [GetSlotStatus, hcall]
    rfl
  refine ⟨hg, ?_, rfl, rfl, rfl, rfl, rfl, rfl, rfl, rfl⟩
  rw [hg]
  rfl

/-- C8 witness at a concrete world. -/
theorem getSlotStatus_two_slots_decode_witness :
    GetSlotStatus busWorldSlots = (some [slotZero, slotOne], none)
    ∧ (GetSlotStatus busWorldSlots).1.map List.length = some 2
    ∧ slotZero.SlotName = "rootfs.0"
    ∧ slotOne.SlotName = "rootfs.1"
    ∧ slotZero.attr "class" = some (.str "rootfs")
    ∧ slotZero.attr "state" = some (.str "booted")
    ∧ slotZero.attr "device" = some (.str "/dev/mmcblk0p1")
    ∧ slotOne.attr "class" = some (.str "rootfs")
    ∧ slotOne.attr "state" = some (.str "inactive")
    ∧ slotOne.attr "device" = some (.str "/dev/mmcblk0p2") :=
  getSlotStatus_two_slots_decode busWorldSlots rfl

/-- C9: the completion wait has no timeout: when the initiating call
succeeds, the channel stays open, and no Completed signal is among the
delivered signals, the operation is still blocked in the receive
(result `none` in this model) after any finite prefix of deliveries. -/
theorem install_wait_has_no_timeout
    (w : BusWorld) (filename : String) (options : InstallBundleOptions)
    (delivered : List Signal) (bodyB bodyI : List DBusValue)
    (hpre : ∀ sg ∈ delivered, sg.Name ≠ interfaceForMember "Completed")
    (hcallB : w.call (interfaceForMember "InstallBundle")
        [.str filename, .dict [("ignore-compatible", .bool options.IgnoreIncompatible)]]
      = .ok bodyB)
    (hcallI : w.call (interfaceForMember "Install") [.str filename] = .ok bodyI) :
    InstallBundle w filename options delivered false = none
    ∧ Install w filename delivered false = none := by
  have hskip := awaitCompleted_append w delivered [] false hpre
  rw [List.append_nil] at hskip
  constructor
  · simp only [InstallBundle, hcallB]
    rw [hskip]
    rfl
  · simp only [Install, hcallI]
    rw [hskip]
    rfl

/-- C9 witness at a concrete world and input. -/
theorem install_wait_has_no_timeout_witness :
    InstallBundle busWorldA "bundle.raucb" ⟨false⟩ [straySignal] false = none
    ∧ Install busWorldA "bundle.raucb" [straySignal] false = none :=
  install_wait_has_no_timeout busWorldA "bundle.raucb" ⟨false⟩ [straySignal] [] []
    (by decide) rfl rfl

/-- C10: InstallerNew fails exactly when establishing the bus connection
fails, returning that error; the outcome of the Completed-subscription
registration is discarded, so construction does not depend on it, and a
connected bus always yields a constructed Installer. -/
theorem installerNew_ignores_subscription_failure
    (e : String) (sub sub2 : Option String) :
    InstallerNew ⟨.error e, sub⟩ = .error e
    ∧ InstallerNew ⟨.ok (), sub⟩ = .ok { objectDest := dbusInterface, objectPath := "/" }
    ∧ InstallerNew ⟨.error e, sub⟩ = InstallerNew ⟨.error e, sub2⟩
    ∧ InstallerNew ⟨.ok (), sub⟩ = InstallerNew ⟨.ok (), sub2⟩ :=
  ⟨rfl, rfl, rfl, rfl⟩

end Rauc
